import Mathlib

/-!
Shallow embedding of the PIPER benchmarking and monitoring harness
(`src/PIPER`): the benchmark suite `criteo_preprocessing.py`, the
vocabulary-lookup example `vocab_mapper.py`, and the telemetry monitor
`monitoring/monitor.py`.

Modelling conventions:
- Machine floats are modelled as exact rationals (ℚ); "NaN / domain error"
  of `torch.log` on a non-positive argument is modelled as `Option.none`.
- External randomness (`torch.randn`, `torch.randint`, Xavier init) is
  passed in as an explicit stream parameter.
- Wall-clock measurements (`time.perf_counter` differences) are passed in
  as explicit positive-rational parameters, since the embedding has no
  clock.
- Python dicts of telemetry metrics become association lists with
  later-entry-wins update, mirroring `dict.update`.
-/

set_option linter.unusedVariables false

namespace PIPER

/-- Element types of the tensors the harness builds (`torch.float32`,
`torch.int32`). -/
inductive DType where
  | float32
  | int32
deriving DecidableEq, Repr

/-- A one-dimensional tensor: a dtype tag plus its element list (elements
as exact rationals). -/
structure Tensor where
  dtype : DType
  data : List ℚ
deriving DecidableEq, Repr

/-- `int((size_mb * 1024 * 1024) / 4)` from `generate_synthetic_data` and
`benchmark_modulus`: element count for a requested size in MB (Python
`int()` truncates, which is `floor` for the non-negative sizes used). -/
def elementsOf (size_mb : ℚ) : ℕ :=
  (⌊size_mb * 1024 * 1024 / 4⌋).toNat

/-- `PIPERBenchmarkSuite.generate_synthetic_data`: builds
`torch.randn(elements) * 2 - 0.5`. The `dtype` parameter is accepted by
the source function but never used: the result is always the float
tensor produced by `randn`. `randn` is the external randomness stream. -/
def generate_synthetic_data (randn : ℕ → ℚ) (size_mb : ℚ)
    (dtype : DType := DType.float32) : Tensor :=
  { dtype := DType.float32
    data := (List.range (elementsOf size_mb)).map (fun i => randn i * 2 - 1/2) }

/-- Integer input of `benchmark_modulus`:
`torch.randint(0, 10000, (elements,), dtype=torch.int32)`. The external
`randint` stream is reduced mod 10000 so every drawn value lies in
`[0, 10000)`, as `torch.randint(0, 10000, ...)` guarantees. -/
def modulus_data (randint : ℕ → ℤ) (size_mb : ℚ) : Tensor :=
  { dtype := DType.int32
    data := (List.range (elementsOf size_mb)).map (fun i => ((randint i % 10000 : ℤ) : ℚ)) }

/-- `BenchmarkResult` dataclass. -/
structure BenchmarkResult where
  name : String
  device : String
  data_size_mb : ℚ
  iterations : ℕ
  total_time_s : ℚ
  throughput_gbs : ℚ
  speedup_vs_cpu : ℚ
  power_watts : Option ℚ := none
  temperature_c : Option ℚ := none
deriving DecidableEq, Repr

/-- `BackendType.Silicon` / `BackendType.Golden` of the pybuda import. -/
inductive BackendType where
  | Silicon
  | Golden
deriving DecidableEq, Repr

/-- The `TFDevice` the suite constructs (arch is always Grayskull). -/
structure DeviceHandle where
  devtype : BackendType
deriving DecidableEq, Repr

/-- `PIPERBenchmarkSuite` state relevant to the claims: the device-type
string and the optional device handle. -/
structure PIPERBenchmarkSuite where
  device_type : String
  device : Option DeviceHandle
deriving DecidableEq, Repr

/-- `PIPERBenchmarkSuite.__init__`: when pybuda imported, build a
`TFDevice` whose backend is `Silicon` iff `device_type == "silicon"`,
else `Golden`; otherwise `self.device = None`. -/
def suiteInit (pybuda_available : Bool) (device_type : String) : PIPERBenchmarkSuite :=
  { device_type := device_type
    device :=
      if pybuda_available then
        some { devtype := if device_type = "silicon" then BackendType.Silicon else BackendType.Golden }
      else none }

/-- `batch_size = min(1024 * 1024, data.shape[0])` for a dataset of the
requested size. -/
def batchSizeOf (size_mb : ℚ) : ℕ :=
  min (1024 * 1024) (elementsOf size_mb)

/-- The CPU timing loop of `benchmark_neg2zero`: `iterations` repetitions
of `torch.clamp(data[:batch_size], min=0.0)` over the same buffer. -/
def neg2zero_cpu_loop (data : List ℚ) (iterations : ℕ) : List (List ℚ) :=
  let batch_size := min (1024 * 1024) data.length
  (List.range iterations).map (fun _ => (data.take batch_size).map (fun x => max x 0))

/-- `PIPERBenchmarkSuite.benchmark_neg2zero`. Timing is external: the
measured CPU and hardware elapsed times are parameters. The branch on
`not PYBUDA_AVAILABLE or self.device is None` selects the CPU-only
record (speedup 1.0) or the compiled-device record
(speedup = cpu_time / hw_time, device label = `self.device_type`). -/
def benchmark_neg2zero (suite : PIPERBenchmarkSuite) (pybuda_available : Bool)
    (data_size_mb : ℚ) (iterations : ℕ) (cpu_time hw_time : ℚ) : BenchmarkResult :=
  let batch_size := batchSizeOf data_size_mb
  if ¬ pybuda_available ∨ suite.device = none then
    { name := "Neg2Zero"
      device := "CPU"
      data_size_mb := data_size_mb
      iterations := iterations
      total_time_s := cpu_time
      throughput_gbs := ((batch_size : ℚ) * 4 * iterations / 10 ^ 9) / cpu_time
      speedup_vs_cpu := 1 }
  else
    { name := "Neg2Zero"
      device := suite.device_type
      data_size_mb := data_size_mb
      iterations := iterations
      total_time_s := hw_time
      throughput_gbs := ((batch_size : ℚ) * 4 * iterations / 10 ^ 9) / hw_time
      speedup_vs_cpu := cpu_time / hw_time }

/-- `PIPERBenchmarkSuite.benchmark_logarithm` (same timing/branch shape as
`benchmark_neg2zero`, operator name "Logarithm"). -/
def benchmark_logarithm (suite : PIPERBenchmarkSuite) (pybuda_available : Bool)
    (data_size_mb : ℚ) (iterations : ℕ) (cpu_time hw_time : ℚ) : BenchmarkResult :=
  let batch_size := batchSizeOf data_size_mb
  if ¬ pybuda_available ∨ suite.device = none then
    { name := "Logarithm"
      device := "CPU"
      data_size_mb := data_size_mb
      iterations := iterations
      total_time_s := cpu_time
      throughput_gbs := ((batch_size : ℚ) * 4 * iterations / 10 ^ 9) / cpu_time
      speedup_vs_cpu := 1 }
  else
    { name := "Logarithm"
      device := suite.device_type
      data_size_mb := data_size_mb
      iterations := iterations
      total_time_s := hw_time
      throughput_gbs := ((batch_size : ℚ) * 4 * iterations / 10 ^ 9) / hw_time
      speedup_vs_cpu := cpu_time / hw_time }

/-- `PIPERBenchmarkSuite.benchmark_modulus`: CPU-only timing loop; the
result's speedup is the fixed literal `1.0` (comment in source: PyBuda
may not support integer modulo), and the device label is "CPU" when
pybuda is missing, else `self.device_type`. -/
def benchmark_modulus (suite : PIPERBenchmarkSuite) (pybuda_available : Bool)
    (data_size_mb : ℚ) (iterations : ℕ) (mod_value : ℤ) (cpu_time : ℚ) : BenchmarkResult :=
  let batch_size := batchSizeOf data_size_mb
  { name := "Modulus(mod=" ++ toString mod_value ++ ")"
    device := if ¬ pybuda_available then "CPU" else suite.device_type
    data_size_mb := data_size_mb
    iterations := iterations
    total_time_s := cpu_time
    throughput_gbs := ((batch_size : ℚ) * 4 * iterations / 10 ^ 9) / cpu_time
    speedup_vs_cpu := 1 }

/-- `PIPERBenchmarkSuite.benchmark_vocabmap`. Input bytes are the index
count (`batch_size * seq_len`) times 4; output bytes add the embedding
dimension; `total_bytes = (input_bytes + output_bytes) * iterations`.
Branches as in `benchmark_neg2zero`. -/
def benchmark_vocabmap (suite : PIPERBenchmarkSuite) (pybuda_available : Bool)
    (vocab_size embedding_dim batch_size seq_len iterations : ℕ)
    (cpu_time hw_time : ℚ) : BenchmarkResult :=
  let input_bytes : ℕ := batch_size * seq_len * 4
  let output_bytes : ℕ := batch_size * seq_len * embedding_dim * 4
  let total_bytes : ℕ := (input_bytes + output_bytes) * iterations
  if ¬ pybuda_available ∨ suite.device = none then
    { name := "VocabMap(vocab=" ++ toString vocab_size ++ ",dim=" ++ toString embedding_dim ++ ")"
      device := "CPU"
      data_size_mb := (total_bytes : ℚ) / (1024 * 1024)
      iterations := iterations
      total_time_s := cpu_time
      throughput_gbs := ((total_bytes : ℚ) / 10 ^ 9) / cpu_time
      speedup_vs_cpu := 1 }
  else
    { name := "VocabMap(vocab=" ++ toString vocab_size ++ ",dim=" ++ toString embedding_dim ++ ")"
      device := suite.device_type
      data_size_mb := (total_bytes : ℚ) / (1024 * 1024)
      iterations := iterations
      total_time_s := hw_time
      throughput_gbs := ((total_bytes : ℚ) / 10 ^ 9) / hw_time
      speedup_vs_cpu := cpu_time / hw_time }

/-! ### Vocabulary lookup (`examples/vocab_mapper.py`) -/

/-- The index lookup performed by `nn.Embedding.__call__` on one index:
a valid index `0 ≤ i < len(weight)` selects row `i` of the weight table;
any other index raises `IndexError` ("index out of range in self"),
modelled as `Except.error`. -/
def nnEmbeddingLookup (weight : List (List ℚ)) (i : ℤ) : Except String (List ℚ) :=
  if 0 ≤ i then
    match weight.get? i.toNat with
    | some row => Except.ok row
    | none => Except.error "index out of range in self"
  else Except.error "index out of range in self"

/-- `VocabMapperPipeline` state: sizes plus the owned embedding weight
table (a `vocab_size`-row list of `embedding_dim`-wide rows). -/
structure VocabMapperPipeline where
  vocab_size : ℕ
  embedding_dim : ℕ
  weight : List (List ℚ)
deriving DecidableEq, Repr

/-- `VocabMapperPipeline.__init__`: build the `nn.Embedding` table,
Xavier-initialize it (the random initializer is the external stream
`initWeight`), then if a padding index was given overwrite that row with
zeros (`self.embedding.weight[padding_idx].fill_(0)`). -/
def vocabMapperInit (vocab_size embedding_dim : ℕ) (initWeight : ℕ → ℕ → ℚ)
    (padding_idx : Option ℕ) : VocabMapperPipeline :=
  let w0 := (List.range vocab_size).map
    (fun i => (List.range embedding_dim).map (fun j => initWeight i j))
  { vocab_size := vocab_size
    embedding_dim := embedding_dim
    weight :=
      match padding_idx with
      | some p => w0.set p (List.replicate embedding_dim 0)
      | none => w0 }

/-- `VocabMapperPipeline.forward` on a (flattened) batch of indices:
`self.embedding(indices)`, each index looked up in the owned table; the
first out-of-range index fails the whole operation. -/
def VocabMapperPipeline.forward (m : VocabMapperPipeline) (indices : List ℤ) :
    Except String (List (List ℚ)) :=
  indices.mapM (nnEmbeddingLookup m.weight)

/-! ### Logarithm operator (`benchmark_logarithm` / `LogOp`) -/

/-- `torch.log` over exact rationals: defined (`some`) exactly on positive
arguments; a non-positive argument is the domain-error case (`none`).
The positive-argument values come from the external math library,
passed in as `ln`. -/
def torchLog (ln : ℚ → ℚ) (x : ℚ) : Option ℚ :=
  if 0 < x then some (ln x) else none

/-- `LogOp.forward` — the device operator of `benchmark_logarithm`:
`torch.log(x + 1e-7)`. Note: no absolute value is taken here. -/
def logOpForward (ln : ℚ → ℚ) (x : ℚ) : Option ℚ :=
  torchLog ln (x + 1 / 10 ^ 7)

/-- Data preparation of `benchmark_logarithm`:
`data = torch.abs(generate_synthetic_data(...)) + 1e-7`, elementwise. -/
def logBenchPrep (x : ℚ) : ℚ :=
  |x| + 1 / 10 ^ 7

/-- The CPU baseline of `benchmark_logarithm` on one raw generated
element: `torch.log(data[...])` applied to the prepared data. -/
def logBenchCpu (ln : ℚ → ℚ) (x : ℚ) : Option ℚ :=
  torchLog ln (logBenchPrep x)

/-! ### Telemetry monitor (`monitoring/monitor.py`) -/

/-- Value of one telemetry metric field: a number, a string, or Python
`None`. -/
inductive MetricValue where
  | num (q : ℚ)
  | str (s : String)
  | null
deriving DecidableEq, Repr

/-- One telemetry sample: the metrics dict, as an association list. -/
abbrev Sample := List (String × MetricValue)

/-- What comes back on stdout from `tt-smi`: either text `json.loads`
rejects (`JSONDecodeError`) or a well-formed JSON object of vendor
fields. -/
inductive SmiPayload where
  | malformed
  | wellFormed (fields : List (String × MetricValue))
deriving DecidableEq, Repr

/-- Outcome of the `subprocess.run(["tt-smi", ...], timeout=5)` call:
the binary may be absent (`FileNotFoundError`), the call may time out
(`TimeoutExpired`), or the process completes with an exit code and a
stdout payload. -/
inductive SmiOutcome where
  | toolMissing
  | timeout
  | completed (returncode : ℤ) (payload : SmiPayload)
deriving DecidableEq, Repr

/-- `GreyskullMonitor.get_tt_smi_metrics`: `{}` on `TimeoutExpired`,
`FileNotFoundError` or `JSONDecodeError`, `{}` on a non-zero exit code,
and the parsed JSON object on a zero exit with well-formed output. -/
def get_tt_smi_metrics : SmiOutcome → List (String × MetricValue)
  | SmiOutcome.toolMissing => []
  | SmiOutcome.timeout => []
  | SmiOutcome.completed rc payload =>
      if rc = 0 then
        match payload with
        | SmiPayload.malformed => []
        | SmiPayload.wellFormed fields => fields
      else []

/-- State of the fixed sysfs temperature file
`/sys/class/hwmon/hwmon0/temp1_input`: absent (`FileNotFoundError`,
tolerated) or present with a raw integer millidegree reading (the file's
expected content). -/
inductive SensorOutcome where
  | missing
  | reading (milli : ℤ)
deriving DecidableEq, Repr

/-- Python `dict.update`: entries of `new` replace same-key entries of
`d` and are appended. -/
def dictUpdate (d new : List (String × MetricValue)) : List (String × MetricValue) :=
  d.filter (fun kv => ¬ (new.map Prod.fst).contains kv.1) ++ new

/-- `GreyskullMonitor.get_system_metrics`: a dict with the current
timestamp; `temperature_c` set to `raw / 1000` from the sensor file or
`None` when the file is missing; then `dict.update` with the `tt-smi`
metrics. -/
def get_system_metrics (timestamp : String) (sensor : SensorOutcome)
    (smi : SmiOutcome) : Sample :=
  let base : Sample :=
    [("timestamp", MetricValue.str timestamp),
     ("temperature_c",
       match sensor with
       | SensorOutcome.missing => MetricValue.null
       | SensorOutcome.reading m => MetricValue.num ((m : ℚ) / 1000))]
  dictUpdate base (get_tt_smi_metrics smi)

/-- `GreyskullMonitor.collect_metrics`: build the sample and append it to
`self.metrics_history`; returns the new history and the sample. -/
def collect_metrics (hist : List Sample) (timestamp : String)
    (sensor : SensorOutcome) (smi : SmiOutcome) : List Sample × Sample :=
  let metrics := get_system_metrics timestamp sensor smi
  (hist ++ [metrics], metrics)

/-- Environment of one iteration of the polling loop: the tick's
timestamp and source outcomes, the `time.time() - start_time` value seen
at the duration check, and whether a `KeyboardInterrupt` is delivered
before this tick runs (interrupts during the preceding sleep land
here). -/
structure TickInput where
  timestamp : String
  sensor : SensorOutcome
  smi : SmiOutcome
  elapsed_after : ℚ
  interrupted : Bool
deriving DecidableEq, Repr

/-- Why `GreyskullMonitor.monitor` returned. -/
inductive StopReason where
  | interrupt
  | durationReached
deriving DecidableEq, Repr

/-- Python truthiness test `if duration and (elapsed >= duration):` —
`None` and `0.0` are falsy, so the bound fires only for a non-zero
duration that elapsed time has reached. -/
def durationCheck (duration : Option ℚ) (elapsed : ℚ) : Bool :=
  match duration with
  | none => false
  | some d => if d = 0 then false else decide (d ≤ elapsed)

/-- `GreyskullMonitor.monitor`'s `while True` loop, driven by a finite
trace of tick environments: each iteration either is cut short by
`KeyboardInterrupt` (caught by the surrounding `try`, so the method
returns), or collects one sample and breaks when the duration bound
fires. `none` means the trace ran out with the loop still running. -/
def monitorLoop (duration : Option ℚ) :
    List TickInput → List Sample → Option (List Sample × StopReason)
  | [], _ => none
  | t :: rest, hist =>
      if t.interrupted then some (hist, StopReason.interrupt)
      else
        let hist2 := (collect_metrics hist t.timestamp t.sensor t.smi).1
        if durationCheck duration t.elapsed_after then
          some (hist2, StopReason.durationReached)
        else monitorLoop duration rest hist2

/-- Number of ticks the loop completes (appends a sample for) before it
stops, for a trace on which it stops. -/
def completedTicks (duration : Option ℚ) : List TickInput → ℕ
  | [] => 0
  | t :: rest =>
      if t.interrupted then 0
      else if durationCheck duration t.elapsed_after then 1
      else 1 + completedTicks duration rest

/-- Outcome of `monitor.py main()`: the final history, why the loop
stopped, and the list of file-write events (`save_history` calls, each
recording the serialized history). -/
structure MonitorRunOutcome where
  history : List Sample
  reason : StopReason
  writes : List (List Sample)
deriving DecidableEq, Repr

/-- `monitor.py main()`: run the polling loop (starting from the empty
history), then — whether the loop ended by interrupt or by the duration
bound — call `save_history` exactly once iff `--output` was given. -/
def monitorMain (duration : Option ℚ) (output : Option String)
    (trace : List TickInput) : Option MonitorRunOutcome :=
  match monitorLoop duration trace [] with
  | none => none
  | some (hist, reason) =>
      some { history := hist
             reason := reason
             writes := match output with
               | some _ => [hist]
               | none => [] }

/-! ### Report writer (`PIPERBenchmarkSuite.save_results`) -/

/-- On-disk state of the report file: the serialized chunks written so
far. -/
structure FileState where
  content : List String
deriving DecidableEq, Repr

/-- `PIPERBenchmarkSuite.save_results`: `with open(output_path, 'w') as f:
json.dump(data, f, indent=2)` writing the serialization chunk by chunk,
with no exception handler. `failAt = some k` injects an I/O failure
before the `k`-th chunk write completes: the file retains the first `k`
chunks and the exception propagates to the caller (`Except.error`);
`failAt = none` is the failure-free run, which writes everything and
returns normally. -/
def save_results (chunks : List String) (failAt : Option ℕ) :
    FileState × Except String Unit :=
  match failAt with
  | none => ({ content := chunks }, Except.ok ())
  | some k => ({ content := chunks.take k }, Except.error "IOError")

/-- Spec-side formula (for comparison with the runner's records): the
spec's aggregation rule "throughput = (bytes processed per iteration ×
iterations) / elapsed seconds / 1e9" stated of a result record. -/
def throughputSpec (bytesPerIter : ℚ) (r : BenchmarkResult) : Prop :=
  r.throughput_gbs = bytesPerIter * r.iterations / r.total_time_s / 10 ^ 9

end PIPER

namespace PIPER

/-! ## Claim theorems -/

/-- **C1.** For every benchmark run by the suite (clamp, log, modulus,
vocab lookup; either backend branch), the reported throughput equals
(bytes processed per iteration × iterations) / elapsed seconds / 1e9,
with bytes per iteration = input bytes (batch element count × 4), plus
the output bytes for the stateful vocab-lookup operator; and for
iterations ≥ 1 and positive elapsed times the stored throughput is
non-negative (in the exact-rational model it is automatically a finite
rational). -/
theorem C1_throughput_formula (suite : PIPERBenchmarkSuite) (pa : Bool)
    (mb : ℚ) (vs ed bs sl it : ℕ) (mv : ℤ) (ct ht : ℚ)
    (hit : 1 ≤ it) (hct : 0 < ct) (hht : 0 < ht) :
    (throughputSpec ((batchSizeOf mb : ℚ) * 4) (benchmark_neg2zero suite pa mb it ct ht) ∧
      0 ≤ (benchmark_neg2zero suite pa mb it ct ht).throughput_gbs) ∧
    (throughputSpec ((batchSizeOf mb : ℚ) * 4) (benchmark_logarithm suite pa mb it ct ht) ∧
      0 ≤ (benchmark_logarithm suite pa mb it ct ht).throughput_gbs) ∧
    (throughputSpec ((batchSizeOf mb : ℚ) * 4) (benchmark_modulus suite pa mb it mv ct) ∧
      0 ≤ (benchmark_modulus suite pa mb it mv ct).throughput_gbs) ∧
    (throughputSpec (((bs * sl * 4 : ℕ) : ℚ) + ((bs * sl * ed * 4 : ℕ) : ℚ))
        (benchmark_vocabmap suite pa vs ed bs sl it ct ht) ∧
      0 ≤ (benchmark_vocabmap suite pa vs ed bs sl it ct ht).throughput_gbs) := by
  refine ⟨?_, ?_, ?_, ?_⟩
  · unfold benchmark_neg2zero throughputSpec
    split
    · exact ⟨by push_cast; ring, by positivity⟩
    · exact ⟨by push_cast; ring, by positivity⟩
  · unfold benchmark_logarithm throughputSpec
    split
    · exact ⟨by push_cast; ring, by positivity⟩
    · exact ⟨by push_cast; ring, by positivity⟩
  · unfold benchmark_modulus throughputSpec
    exact ⟨by push_cast; ring, by positivity⟩
  · unfold benchmark_vocabmap throughputSpec
    split
    · exact ⟨by push_cast; ring, by positivity⟩
    · exact ⟨by push_cast; ring, by positivity⟩

/-- Witness for C1 at a concrete CPU-only configuration. -/
theorem C1_throughput_formula_witness :
    (throughputSpec ((batchSizeOf 1 : ℚ) * 4) (benchmark_neg2zero (suiteInit false "cpu") false 1 1 1 1) ∧
      0 ≤ (benchmark_neg2zero (suiteInit false "cpu") false 1 1 1 1).throughput_gbs) ∧
    (throughputSpec ((batchSizeOf 1 : ℚ) * 4) (benchmark_logarithm (suiteInit false "cpu") false 1 1 1 1) ∧
      0 ≤ (benchmark_logarithm (suiteInit false "cpu") false 1 1 1 1).throughput_gbs) ∧
    (throughputSpec ((batchSizeOf 1 : ℚ) * 4) (benchmark_modulus (suiteInit false "cpu") false 1 1 100 1) ∧
      0 ≤ (benchmark_modulus (suiteInit false "cpu") false 1 1 100 1).throughput_gbs) ∧
    (throughputSpec (((2 * 3 * 4 : ℕ) : ℚ) + ((2 * 3 * 5 * 4 : ℕ) : ℚ))
        (benchmark_vocabmap (suiteInit false "cpu") false 7 5 2 3 1 1 1) ∧
      0 ≤ (benchmark_vocabmap (suiteInit false "cpu") false 7 5 2 3 1 1 1).throughput_gbs) :=
  C1_throughput_formula (suiteInit false "cpu") false 1 7 5 2 3 1 100 1 1
    (by norm_num) (by norm_num) (by norm_num)

/-- **C2.** The speedup field is exactly 1.0 on the CPU-baseline branch,
equals CPU elapsed / backend elapsed on the accelerator branch, and is
the fixed sentinel 1.0 for the modulus benchmark for every device
configuration and input size. -/
theorem C2_speedup (suite : PIPERBenchmarkSuite) (pa : Bool)
    (mb : ℚ) (vs ed bs sl it : ℕ) (mv : ℤ) (ct ht : ℚ) :
    ((¬ pa ∨ suite.device = none) →
      (benchmark_neg2zero suite pa mb it ct ht).speedup_vs_cpu = 1 ∧
      (benchmark_neg2zero suite pa mb it ct ht).device = "CPU" ∧
      (benchmark_logarithm suite pa mb it ct ht).speedup_vs_cpu = 1 ∧
      (benchmark_vocabmap suite pa vs ed bs sl it ct ht).speedup_vs_cpu = 1 ∧
      (benchmark_vocabmap suite pa vs ed bs sl it ct ht).device = "CPU") ∧
    (¬ (¬ pa ∨ suite.device = none) →
      (benchmark_neg2zero suite pa mb it ct ht).speedup_vs_cpu = ct / ht ∧
      (benchmark_logarithm suite pa mb it ct ht).speedup_vs_cpu = ct / ht ∧
      (benchmark_vocabmap suite pa vs ed bs sl it ct ht).speedup_vs_cpu = ct / ht) ∧
    (benchmark_modulus suite pa mb it mv ct).speedup_vs_cpu = 1 := by
  refine ⟨fun h => ?_, fun h => ?_, ?_⟩
  · simp only [benchmark_neg2zero, benchmark_logarithm, benchmark_vocabmap]
    split_ifs
    simp
  · simp only [benchmark_neg2zero, benchmark_logarithm, benchmark_vocabmap]
    split_ifs
    simp
  · simp [benchmark_modulus]

/-- Witness for C2: both branch hypotheses discharged at concrete
configurations (pybuda absent for the CPU branch; pybuda present with a
silicon device for the accelerator branch). -/
theorem C2_speedup_witness :
    (benchmark_neg2zero (suiteInit false "cpu") false 1 1 1 1).speedup_vs_cpu = 1 ∧
    (benchmark_neg2zero (suiteInit true "silicon") true 1 1 6 2).speedup_vs_cpu = 6 / 2 ∧
    (benchmark_modulus (suiteInit true "silicon") true 1 1 100 1).speedup_vs_cpu = 1 :=
  ⟨((C2_speedup (suiteInit false "cpu") false 1 7 5 2 3 1 100 1 1).1 (by simp [suiteInit])).1,
   ((C2_speedup (suiteInit true "silicon") true 1 7 5 2 3 1 100 6 2).2.1 (by simp [suiteInit])).1,
   (C2_speedup (suiteInit true "silicon") true 1 7 5 2 3 1 100 1 1).2.2⟩

/-- **C3 counterexample.** At a requested size of 8 MB the generator
produces 2,097,152 elements — above the 1,048,576-element batch cap —
yet with a caller-supplied iteration count of 1 the timing loop still
runs exactly 1 iteration and touches only 1,048,576 × 4 bytes, strictly
less than the requested 8 × 2²⁰ bytes: the iteration count is not
increased and the full requested data volume is not processed. -/
theorem C3_counterexample :
    elementsOf 8 = 2097152 ∧
    batchSizeOf 8 = 1048576 ∧
    (neg2zero_cpu_loop (generate_synthetic_data (fun _ => 0) 8).data 1).length = 1 ∧
    batchSizeOf 8 * 4 * 1 < 8 * 1024 * 1024 := by
  have h1 : elementsOf 8 = 2097152 := by
    norm_num [elementsOf]
    rfl
  refine ⟨h1, ?_, ?_, ?_⟩
  · simp [batchSizeOf, h1]
  · simp [neg2zero_cpu_loop]
  · simp [batchSizeOf, h1]

/-- **C3 (amended).** Each benchmark's timing loop operates on a batch of
`min(1,048,576, generated element count)` elements (hence at most
1,048,576); the iteration count of the loop is exactly the
caller-supplied `iterations` argument, independent of the requested data
size; and every iteration processes the same first `batch` elements of
the generated buffer, so data beyond the batch cap is never processed
(a requested size above the cap does not increase the iteration
count). -/
theorem C3_batch_cap (randn : ℕ → ℚ) (mb : ℚ) (iterations : ℕ) :
    batchSizeOf mb = min (1024 * 1024) (elementsOf mb) ∧
    batchSizeOf mb ≤ 1048576 ∧
    (generate_synthetic_data randn mb).data.length = elementsOf mb ∧
    neg2zero_cpu_loop (generate_synthetic_data randn mb).data iterations
      = List.replicate iterations
          (((generate_synthetic_data randn mb).data.take (batchSizeOf mb)).map
            (fun x => max x 0)) := by
  have hlen : (generate_synthetic_data randn mb).data.length = elementsOf mb := by
    simp [generate_synthetic_data]
  refine ⟨rfl, Nat.min_le_left _ _, hlen, ?_⟩
  simp [neg2zero_cpu_loop, hlen, batchSizeOf]

/-- The initialized weight table has exactly `vocab_size` rows. -/
theorem vocabMapperInit_weight_length (vs ed : ℕ) (iw : ℕ → ℕ → ℚ)
    (pidx : Option ℕ) : (vocabMapperInit vs ed iw pidx).weight.length = vs := by
  unfold vocabMapperInit
  cases pidx <;> simp

/-- **C4.** For the vocabulary-lookup operator with a table of
`vocab_size` rows: lookup of a valid index `0 ≤ i < vocab_size` returns
exactly the `i`-th row of the owned table; lookup of a designated
padding index (which `__init__` zero-fills) returns the all-zero row;
and lookup of any index outside `[0, vocab_size)` fails with the
out-of-range error instead of clamping or wrapping. -/
theorem C4_vocab_lookup (vs ed : ℕ) (iw : ℕ → ℕ → ℚ) (p : ℕ) (i : ℤ) :
    (0 ≤ i → i < (vs : ℤ) →
      ∃ row, (vocabMapperInit vs ed iw (some p)).weight.get? i.toNat = some row ∧
        nnEmbeddingLookup (vocabMapperInit vs ed iw (some p)).weight i = Except.ok row) ∧
    (p < vs →
      nnEmbeddingLookup (vocabMapperInit vs ed iw (some p)).weight (p : ℤ)
        = Except.ok (List.replicate ed 0)) ∧
    ((i < 0 ∨ (vs : ℤ) ≤ i) →
      nnEmbeddingLookup (vocabMapperInit vs ed iw (some p)).weight i
        = Except.error "index out of range in self") := by
  have hlen : (vocabMapperInit vs ed iw (some p)).weight.length = vs :=
    vocabMapperInit_weight_length vs ed iw (some p)
  refine ⟨fun h0 hlt => ?_, fun hp => ?_, fun hout => ?_⟩
  · have hi : i.toNat < (vocabMapperInit vs ed iw (some p)).weight.length := by
      rw [hlen]; omega
    refine ⟨(vocabMapperInit vs ed iw (some p)).weight.get ⟨i.toNat, hi⟩,
      List.get?_eq_get hi, ?_⟩
    unfold nnEmbeddingLookup
    rw [if_pos h0, List.get?_eq_get hi]
  · have hget : (vocabMapperInit vs ed iw (some p)).weight.get? p
        = some (List.replicate ed 0) := by
      unfold vocabMapperInit
      exact List.get?_set_eq_of_lt _ (by simpa using hp)
    unfold nnEmbeddingLookup
    rw [if_pos (by positivity), Int.toNat_natCast, hget]
  · unfold nnEmbeddingLookup
    rcases hout with hneg | hge
    · rw [if_neg (by omega)]
    · by_cases h0 : 0 ≤ i
      · have hnone : (vocabMapperInit vs ed iw (some p)).weight.get? i.toNat = none := by
          rw [List.get?_eq_none, hlen]
          omega
        rw [if_pos h0, hnone]
      · rw [if_neg h0]

/-- Witness for C4: a concrete 3-row, 2-wide table with padding index 1;
index 2 is valid, index 1 is the zeroed padding row, index 5 and index
−1 fail with the out-of-range error. -/
theorem C4_vocab_lookup_witness :
    (∃ row, (vocabMapperInit 3 2 (fun i j => (i : ℚ) + j) (some 1)).weight.get? (Int.toNat 2) = some row ∧
      nnEmbeddingLookup (vocabMapperInit 3 2 (fun i j => (i : ℚ) + j) (some 1)).weight 2
        = Except.ok row) ∧
    nnEmbeddingLookup (vocabMapperInit 3 2 (fun i j => (i : ℚ) + j) (some 1)).weight ((1 : ℕ) : ℤ)
      = Except.ok (List.replicate 2 0) ∧
    nnEmbeddingLookup (vocabMapperInit 3 2 (fun i j => (i : ℚ) + j) (some 1)).weight 5
      = Except.error "index out of range in self" ∧
    nnEmbeddingLookup (vocabMapperInit 3 2 (fun i j => (i : ℚ) + j) (some 1)).weight (-1)
      = Except.error "index out of range in self" :=
  ⟨(C4_vocab_lookup 3 2 (fun i j => (i : ℚ) + j) 1 2).1 (by norm_num) (by norm_num),
   (C4_vocab_lookup 3 2 (fun i j => (i : ℚ) + j) 1 2).2.1 (by norm_num),
   (C4_vocab_lookup 3 2 (fun i j => (i : ℚ) + j) 1 5).2.2 (Or.inr (by norm_num)),
   (C4_vocab_lookup 3 2 (fun i j => (i : ℚ) + j) 1 (-1)).2.2 (Or.inl (by norm_num))⟩

/-- **C5 counterexample.** The logarithm operator itself (`LogOp.forward`,
`torch.log(x + 1e-7)`) takes no absolute value: at the non-positive
input −1 its log argument is −1 + 1e-7 < 0, a domain error (`none`),
whereas the claimed formula ln(|x| + ε) has the well-defined value
ln(1 + 1e-7) there — the value the CPU data-prep path computes. So "for
every input element x the operator computes ln(|x| + ε), and a
non-positive input raises no domain error" is false of the operator. -/
theorem C5_counterexample :
    logOpForward (fun q => q) (-1) = none ∧
    logBenchCpu (fun q => q) (-1) = some (1 + 1 / 10 ^ 7) := by
  constructor
  · unfold logOpForward torchLog
    rw [if_neg (by norm_num)]
  · unfold logBenchCpu logBenchPrep torchLog
    rw [abs_of_nonpos (by norm_num), if_pos (by norm_num)]
    norm_num

/-- **C5 (amended).** The benchmark's CPU path first maps each raw
generated element x to |x| + ε (ε = 1e-7) and then applies `torch.log`,
so end-to-end it computes ln(|x| + ε) for every x — including 0 and
negative values — without a domain error; the device operator
`LogOp.forward` computes ln(x + ε) with no absolute value, which is
defined only for x > −ε, and applied after the benchmark's data prep
it computes ln(|x| + 2ε) (the offset is added twice). -/
theorem C5_log_epsilon (ln : ℚ → ℚ) (x : ℚ) :
    logBenchCpu ln x = some (ln (|x| + 1 / 10 ^ 7)) ∧
    logBenchCpu ln 0 = some (ln (1 / 10 ^ 7)) ∧
    (-(1 / 10 ^ 7) < x → logOpForward ln x = some (ln (x + 1 / 10 ^ 7))) ∧
    logOpForward ln (logBenchPrep x) = some (ln (|x| + 2 / 10 ^ 7)) := by
  have habs : (0 : ℚ) ≤ |x| := abs_nonneg x
  refine ⟨?_, ?_, fun hx => ?_, ?_⟩
  · unfold logBenchCpu logBenchPrep torchLog
    rw [if_pos (by positivity)]
  · unfold logBenchCpu logBenchPrep torchLog
    rw [if_pos (by norm_num)]
    norm_num
  · unfold logOpForward torchLog
    rw [if_pos (by linarith)]
  · unfold logOpForward logBenchPrep torchLog
    rw [if_pos (by positivity)]
    norm_num
    ring_nf

/-- Witness for C5 at ln = identity and x = 5 (discharging the
positivity hypothesis of the operator conjunct). -/
theorem C5_log_epsilon_witness :
    logBenchCpu (fun q => q) 5 = some (|(5 : ℚ)| + 1 / 10 ^ 7) ∧
    logOpForward (fun q => q) 5 = some ((5 : ℚ) + 1 / 10 ^ 7) :=
  ⟨(C5_log_epsilon (fun q => q) 5).1,
   (C5_log_epsilon (fun q => q) 5).2.2.1 (by norm_num)⟩

/-- If the polling loop stops, the final history extends the starting one
by exactly one sample per completed tick. -/
theorem monitorLoop_length (duration : Option ℚ) :
    ∀ (trace : List TickInput) (hist h2 : List Sample) (r : StopReason),
      monitorLoop duration trace hist = some (h2, r) →
      h2.length = hist.length + completedTicks duration trace := by
  intro trace
  induction trace with
  | nil => intro hist h2 r h; simp [monitorLoop] at h
  | cons t rest ih =>
      intro hist h2 r h
      unfold monitorLoop at h
      unfold completedTicks
      by_cases hint : t.interrupted
      · rw [if_pos hint] at h
        rw [if_pos hint]
        cases h
        simp
      · rw [if_neg hint] at h
        rw [if_neg hint]
        by_cases hdur : durationCheck duration t.elapsed_after
        · rw [if_pos hdur] at h
          rw [if_pos hdur]
          cases h
          simp [collect_metrics]
        · rw [if_neg hdur] at h
          rw [if_neg hdur]
          have := ih _ h2 r h
          simp [collect_metrics] at this
          omega

/-- **C6.** Every completed telemetry poll tick appends exactly one
sample to the history — so when the polling loop stops, the history
length equals the number of completed ticks — and each enumerated
telemetry-source failure is recovered within the tick: a missing tt-smi
binary, a tt-smi timeout, a non-zero tt-smi exit and a malformed tt-smi
payload all contribute the empty metrics dict, and a missing sensor file
records a null temperature, the tick still producing its sample. -/
theorem C6_tick_appends_one (hist : List Sample) (ts : String)
    (sensor : SensorOutcome) (smi : SmiOutcome) (duration : Option ℚ)
    (trace : List TickInput) (h2 : List Sample) (r : StopReason)
    (rc : ℤ) (payload : SmiPayload) :
    (collect_metrics hist ts sensor smi).1.length = hist.length + 1 ∧
    get_tt_smi_metrics SmiOutcome.toolMissing = [] ∧
    get_tt_smi_metrics SmiOutcome.timeout = [] ∧
    (rc ≠ 0 → get_tt_smi_metrics (SmiOutcome.completed rc payload) = []) ∧
    get_tt_smi_metrics (SmiOutcome.completed rc SmiPayload.malformed) = [] ∧
    (get_tt_smi_metrics smi = [] →
      get_system_metrics ts SensorOutcome.missing smi
        = [("timestamp", MetricValue.str ts), ("temperature_c", MetricValue.null)]) ∧
    (monitorLoop duration trace hist = some (h2, r) →
      h2.length = hist.length + completedTicks duration trace) := by
  refine ⟨by simp [collect_metrics], rfl, rfl, fun hrc => ?_, ?_, fun hempty => ?_,
    monitorLoop_length duration trace hist h2 r⟩
  · simp only [get_tt_smi_metrics]
    rw [if_neg hrc]
  · simp only [get_tt_smi_metrics]
    split <;> rfl
  · unfold get_system_metrics dictUpdate
    rw [hempty]
    simp


/-- Witness for C6 at a one-tick interrupted trace with every telemetry
source failing. -/
theorem C6_tick_appends_one_witness :
    (collect_metrics [] "t" SensorOutcome.missing SmiOutcome.toolMissing).1.length
      = ([] : List Sample).length + 1 ∧
    get_tt_smi_metrics (SmiOutcome.completed 1 (SmiPayload.wellFormed [])) = [] ∧
    get_tt_smi_metrics (SmiOutcome.completed 1 SmiPayload.malformed) = [] ∧
    get_system_metrics "t" SensorOutcome.missing SmiOutcome.toolMissing
      = [("timestamp", MetricValue.str "t"), ("temperature_c", MetricValue.null)] ∧
    ([] : List Sample).length = ([] : List Sample).length
      + completedTicks none [⟨"t", SensorOutcome.missing, SmiOutcome.toolMissing, 1, true⟩] :=
  let T := C6_tick_appends_one [] "t" SensorOutcome.missing SmiOutcome.toolMissing none
    [⟨"t", SensorOutcome.missing, SmiOutcome.toolMissing, 1, true⟩] [] StopReason.interrupt
    1 (SmiPayload.wellFormed [])
  ⟨T.1, T.2.2.2.1 (by norm_num), T.2.2.2.2.1, T.2.2.2.2.2.1 rfl, T.2.2.2.2.2.2 rfl⟩

/-- **C7.** When the polling loop of `monitor.py main()` terminates, the
termination reason is an interrupt or the elapsed-duration bound, and —
for either reason, interrupt included — the full sample history is
persisted exactly once iff an output path was configured. -/
theorem C7_termination_persistence (duration : Option ℚ) (output : Option String)
    (trace : List TickInput) (out : MonitorRunOutcome)
    (h : monitorMain duration output trace = some out) :
    (out.reason = StopReason.interrupt ∨ out.reason = StopReason.durationReached) ∧
    (∀ p, output = some p → out.writes = [out.history]) ∧
    (output = none → out.writes = []) := by
  unfold monitorMain at h
  cases hl : monitorLoop duration trace [] with
  | none => rw [hl] at h; exact absurd h (by simp)
  | some pr =>
      rw [hl] at h
      obtain ⟨hist, reason⟩ := pr
      cases h
      refine ⟨?_, ?_, ?_⟩
      · cases reason
        · exact Or.inl rfl
        · exact Or.inr rfl
      · intro p hp
        subst hp
        rfl
      · intro hp
        subst hp
        rfl

/-- Witness for C7: a one-tick trace interrupted immediately, with an
output path configured — the loop stops with the interrupt reason and
the (empty) history is still written exactly once. -/
theorem C7_termination_persistence_witness :
    ((MonitorRunOutcome.mk [] StopReason.interrupt [[]]).reason = StopReason.interrupt ∨
      (MonitorRunOutcome.mk [] StopReason.interrupt [[]]).reason = StopReason.durationReached) ∧
    (MonitorRunOutcome.mk [] StopReason.interrupt [[]]).writes
      = [(MonitorRunOutcome.mk [] StopReason.interrupt [[]]).history] :=
  let T := C7_termination_persistence none (some "metrics.json")
    [⟨"t", SensorOutcome.missing, SmiOutcome.toolMissing, 1, true⟩]
    (MonitorRunOutcome.mk [] StopReason.interrupt [[]]) rfl
  ⟨T.1, T.2.1 "metrics.json" rfl⟩

/-- **C8.** Report writing surfaces failure rather than masking it: the
write returns normally iff no I/O failure occurred; a failure-free write
leaves exactly the full serialization on disk; any injected I/O failure
propagates out of `save_results` as the error (the function has no
handler); and whenever the on-disk content is not the full
serialization, the caller saw the error — a partially written file is
never silently reported as success. -/
theorem C8_save_results_allornothing (chunks : List String) (failAt : Option ℕ) :
    ((save_results chunks failAt).2 = Except.ok () ↔ failAt = none) ∧
    (failAt = none → (save_results chunks failAt).1.content = chunks) ∧
    (∀ k, failAt = some k → (save_results chunks failAt).2 = Except.error "IOError") ∧
    ((save_results chunks failAt).1.content ≠ chunks →
      (save_results chunks failAt).2 = Except.error "IOError") := by
  cases failAt with
  | none =>
      exact ⟨by simp [save_results], fun _ => rfl, fun k hk => by simp at hk,
        fun hne => absurd rfl hne⟩
  | some k =>
      exact ⟨by simp [save_results], fun h => by simp at h, fun k2 hk => rfl,
        fun _ => rfl⟩

/-- Witness for C8: writing chunks ["a", "b"] with a failure injected
before the second chunk leaves the partial content ["a"] and surfaces
the error; the failure-free write leaves the full content. -/
theorem C8_save_results_allornothing_witness :
    (save_results ["a", "b"] (some 1)).2 = Except.error "IOError" ∧
    (save_results ["a", "b"] (some 1)).1.content = ["a"] ∧
    (save_results ["a", "b"] none).1.content = ["a", "b"] :=
  ⟨(C8_save_results_allornothing ["a", "b"] (some 1)).2.2.1 1 rfl,
    rfl,
    (C8_save_results_allornothing ["a", "b"] none).2.1 rfl⟩

/-- **C9 counterexample.** The synthetic data generator ignores its
element-type argument: requesting 32-bit integers still yields the
float32 tensor built from `randn * 2 - 0.5`, whose values need not be
integers nor lie in a bounded range (a raw draw of 10000 yields the
non-integer 19999.5). There is no integer mode in the generator. -/
theorem elementsOf_tiny : elementsOf (1 / 262144) = 1 := by
  norm_num [elementsOf]

theorem C9_counterexample :
    (generate_synthetic_data (fun _ => 0) 1 DType.int32).dtype = DType.float32 ∧
    DType.float32 ≠ DType.int32 ∧
    (generate_synthetic_data (fun _ => 10000) (1 / 262144) DType.int32).data
      = [39999 / 2] := by
  refine ⟨rfl, by decide, ?_⟩
  simp only [generate_synthetic_data]
  rw [elementsOf_tiny]
  norm_num [List.range_succ]

/-- **C9 (amended).** The generator returns a one-dimensional array of
exactly `floor(size_mb * 1024 * 1024 / 4)` elements for every requested
size and element type; a size producing zero elements yields the empty
array without error; the values are `randn * 2 - 0.5`, a transform that
attains both signs (raw draws 1 and 0 give +3/2 and −1/2); but the
dtype argument is ignored and the result is always float32. The modulus
benchmark's integer input is generated separately
(`torch.randint(0, 10000, ...)`): an int32 array of the same element
count with every value in [0, 10000). -/
theorem C9_generator (randn : ℕ → ℚ) (randint : ℕ → ℤ) (mb : ℚ) (dtype : DType) :
    (generate_synthetic_data randn mb dtype).data.length = elementsOf mb ∧
    (generate_synthetic_data randn mb dtype).dtype = DType.float32 ∧
    (elementsOf mb = 0 → (generate_synthetic_data randn mb dtype).data = []) ∧
    (generate_synthetic_data randn mb dtype).data
      = (List.range (elementsOf mb)).map (fun i => randn i * 2 - 1 / 2) ∧
    (generate_synthetic_data (fun _ => 1) (1 / 262144) DType.float32).data = [3 / 2] ∧
    (generate_synthetic_data (fun _ => 0) (1 / 262144) DType.float32).data = [-(1 / 2)] ∧
    (modulus_data randint mb).dtype = DType.int32 ∧
    (modulus_data randint mb).data.length = elementsOf mb ∧
    (∀ v ∈ (modulus_data randint mb).data, 0 ≤ v ∧ v < 10000) := by
  refine ⟨by simp [generate_synthetic_data], rfl,
    fun h => by simp [generate_synthetic_data, h], rfl,
    by simp only [generate_synthetic_data]; rw [elementsOf_tiny]; norm_num [List.range_succ],
    by simp only [generate_synthetic_data]; rw [elementsOf_tiny]; norm_num [List.range_succ], rfl,
    by simp [modulus_data], ?_⟩
  intro v hv
  simp only [modulus_data, List.mem_map, List.mem_range] at hv
  obtain ⟨i, hi, rfl⟩ := hv
  constructor
  · exact_mod_cast Int.emod_nonneg (randint i) (by norm_num)
  · exact_mod_cast Int.emod_lt_of_pos (randint i) (by norm_num)

/-- Witness for C9 at concrete streams and size (discharging the
zero-size and membership hypotheses). -/
theorem C9_generator_witness :
    (generate_synthetic_data (fun _ => 1) 0 DType.float32).data = [] ∧
    (0 : ℚ) ≤ (((7 : ℤ) % 10000 : ℤ) : ℚ) ∧ (((7 : ℤ) % 10000 : ℤ) : ℚ) < 10000 :=
  ⟨(C9_generator (fun _ => 1) (fun _ => 7) 0 DType.float32).2.2.1 (by norm_num [elementsOf]),
    ((C9_generator (fun _ => 1) (fun _ => 7) (1 / 262144) DType.int32).2.2.2.2.2.2.2.2
      (((7 : ℤ) % 10000 : ℤ) : ℚ)
      (by simp only [modulus_data]; rw [elementsOf_tiny]; simp [List.range_succ])).1,
    ((C9_generator (fun _ => 1) (fun _ => 7) (1 / 262144) DType.int32).2.2.2.2.2.2.2.2
      (((7 : ℤ) % 10000 : ℤ) : ℚ)
      (by simp only [modulus_data]; rw [elementsOf_tiny]; simp [List.range_succ])).2⟩

/-- **C10.** With the accelerator library importable, the CLI choice
`--device cpu` does not produce a CPU-only run: `__init__` maps every
non-"silicon" device type to a Golden-simulator backend device, the
benchmark takes the compiled-device branch (its recorded elapsed time is
the hardware-loop time and its speedup is cpu/hw), and the record's
device label is the string "cpu"; a pure CPU-baseline record (label
"CPU", speedup 1) arises only when the library is unavailable. -/
theorem C10_cpu_choice_golden (mb : ℚ) (it : ℕ) (ct ht : ℚ) :
    (suiteInit true "cpu").device = some { devtype := BackendType.Golden } ∧
    (benchmark_neg2zero (suiteInit true "cpu") true mb it ct ht).device = "cpu" ∧
    (benchmark_neg2zero (suiteInit true "cpu") true mb it ct ht).total_time_s = ht ∧
    (benchmark_neg2zero (suiteInit true "cpu") true mb it ct ht).speedup_vs_cpu = ct / ht ∧
    (suiteInit false "cpu").device = none ∧
    (benchmark_neg2zero (suiteInit false "cpu") false mb it ct ht).device = "CPU" ∧
    (benchmark_neg2zero (suiteInit false "cpu") false mb it ct ht).speedup_vs_cpu = 1 := by
  refine ⟨by simp [suiteInit], ?_, ?_, ?_, rfl, ?_, ?_⟩ <;>
    simp [benchmark_neg2zero, suiteInit]

end PIPER
